import Mathlib

/-!
Shallow embedding of the core of the `bevy_svg` crate, for checking its
natural-language specification.

Part 1 embeds `PathConvIter` from `src/svg.rs` (the Path Segment Converter):
the iterator state (`prev`, `first`, `needs_end`, `deferred`, `scale`) and its
`next` method, modelled as a structurally recursive run over the remaining
segment list.  Coordinates are modelled as integers: the converter only copies
points and multiplies them by the per-path axis-sign scale, whose components
are exactly plus or minus one, so every operation is exact.
-/

/-- A 2D point (`lyon` `Point` / `tiny_skia_path::Point`), with exact integer
coordinates. -/
structure Pt where
  x : Int
  y : Int
deriving DecidableEq, Repr

/-- `usvg::tiny_skia_path::PathSegment`: the raw path commands. -/
inductive PathSegment where
  | moveTo (p : Pt)
  | lineTo (p : Pt)
  | quadTo (ctrl p : Pt)
  | cubicTo (ctrl1 ctrl2 p : Pt)
  | close
deriving DecidableEq, Repr

/-- `lyon_path::PathEvent`: the normalized events the converter emits. -/
inductive PathEvent where
  | begin (at_pt : Pt)
  | line (src dst : Pt)
  | quadratic (src ctrl dst : Pt)
  | cubic (src ctrl1 ctrl2 dst : Pt)
  | end_ (last first : Pt) (close : Bool)
deriving DecidableEq, Repr

/-- Componentwise scale of a point (application of the `Transform2D::scale`
used by the converter; its components are always `1` or `-1`). -/
def scalePt (sc : Pt) (p : Pt) : Pt :=
  ⟨sc.x * p.x, sc.y * p.y⟩

/-- `PathEvent::transformed(&scale)`: applies the scale to every point of the
event. -/
def transformed (sc : Pt) : PathEvent → PathEvent
  | .begin p => .begin (scalePt sc p)
  | .line a b => .line (scalePt sc a) (scalePt sc b)
  | .quadratic a c b => .quadratic (scalePt sc a) (scalePt sc c) (scalePt sc b)
  | .cubic a c1 c2 b => .cubic (scalePt sc a) (scalePt sc c1) (scalePt sc c2) (scalePt sc b)
  | .end_ l f c => .end_ (scalePt sc l) (scalePt sc f) c

/-- Mutable state of `PathConvIter` (minus the iterator and the fixed scale). -/
structure ConvState where
  prev : Pt
  first : Pt
  needs_end : Bool
  deferred : Option PathEvent
deriving DecidableEq, Repr

/-- One segment-consuming step of `PathConvIter::next` (`src/svg.rs` lines
196-266), assuming the deferred slot has already been drained: returns the
produced event (before the scale transform is applied to it) and the new
state.  Every branch of the source `match` produces an event. -/
def stepSeg (s : ConvState) : PathSegment → PathEvent × ConvState
  | .moveTo p =>
      if s.needs_end then
        (.end_ s.prev s.first false,
         { prev := p, first := p, needs_end := false, deferred := some (.begin p) })
      else
        (.begin p, { s with first := p })
  | .lineTo p =>
      (.line s.prev p, { s with prev := p, needs_end := true })
  | .quadTo _ p =>
      -- The source binds `ctrl` but emits `ctrl: convert_point(p)` (svg.rs:230):
      -- the control point of the emitted event is the segment's end point.
      (.quadratic s.prev p p, { s with prev := p, needs_end := true })
  | .cubicTo c1 c2 p =>
      (.cubic s.prev c1 c2 p, { s with prev := p, needs_end := true })
  | .close =>
      (.end_ s.first s.first true, { s with prev := s.first, needs_end := false })

/-- The full event sequence produced by repeatedly calling
`PathConvIter::next` until it returns `None`.  A call first drains the
deferred slot, returning its event without applying the scale transform
(svg.rs:191-193 returns before the `.transformed(&self.scale)` at line 268);
a segment-consuming call and the synthesized final `End` do pass through the
scale. -/
def runConv (sc : Pt) (s : ConvState) : List PathSegment → List PathEvent
  | [] =>
      s.deferred.toList ++
        (if s.needs_end then [transformed sc (.end_ s.prev s.first false)] else [])
  | seg :: rest =>
      let out := stepSeg { s with deferred := none } seg
      s.deferred.toList ++ (transformed sc out.1 :: runConv sc out.2 rest)

/-- Initial converter state (`Convert<PathConvIter> for &usvg::Path`,
svg.rs:272-295): `prev = first = (0,0)`, no deferred event, `needs_end`
false. -/
def initConvState : ConvState :=
  { prev := ⟨0, 0⟩, first := ⟨0, 0⟩, needs_end := false, deferred := none }

/-- The event stream of one path under the fixed per-path scale `sc`. -/
def pathEvents (sc : Pt) (segs : List PathSegment) : List PathEvent :=
  runConv sc initConvState segs

/-- The per-path axis-sign scale derived from the path's absolute transform:
`-1` on an axis whose scale factor is negative, else `1` (svg.rs:282-293).
The transform components are rationals standing in for the source's `f32`. -/
def mkScale (sx sy : Rat) : Pt :=
  ⟨if sx < 0 then -1 else 1, if sy < 0 then -1 else 1⟩

/-!
Part 2 embeds the Origin Correction System of `src/origin.rs`: the `Origin`
enum with `compute_translation`, the per-entity `OriginState`, and the
`apply_origin` system body.  Scalars are rationals standing in for the
source's `f32`: the operations involved (negation, addition, halving,
products of the concrete sizes used) are exact. -/

/-- A 2D vector of scalars (`bevy` `Vec2`). -/
structure V2 where
  x : Rat
  y : Rat
deriving DecidableEq, Repr

/-- A 3D vector of scalars (`bevy` `Vec3`). -/
structure V3 where
  x : Rat
  y : Rat
  z : Rat
deriving DecidableEq, Repr

/-- Componentwise sum of 3D vectors. -/
def addV3 (a b : V3) : V3 := ⟨a.x + b.x, a.y + b.y, a.z + b.z⟩

/-- Componentwise difference of 3D vectors. -/
def subV3 (a b : V3) : V3 := ⟨a.x - b.x, a.y - b.y, a.z - b.z⟩

/-- `Origin` (origin.rs:13-25): the logical origin of the rendered image. -/
inductive Origin where
  | bottomLeft
  | bottomRight
  | center
  | topLeft
  | topRight
deriving DecidableEq, Repr

/-- `Origin::compute_translation` (origin.rs:30-39). -/
def compute_translation (o : Origin) (scaled_size : V2) : V3 :=
  match o with
  | .bottomLeft => ⟨0, scaled_size.y, 0⟩
  | .bottomRight => ⟨-scaled_size.x, scaled_size.y, 0⟩
  | .center => ⟨-scaled_size.x * (1/2), scaled_size.y * (1/2), 0⟩
  | .topLeft => ⟨0, 0, 0⟩
  | .topRight => ⟨-scaled_size.x, 0, 0⟩

/-- A TRS transform (`bevy` `Transform`, and the value
`GlobalTransform::compute_transform` yields).  Rotation is an abstract
quaternion, carried only to show it is never modified. -/
structure Transform3 where
  translation : V3
  rotation : V3 × Rat
  scale : V3
deriving DecidableEq, Repr

/-- The `Svg` asset as seen by the origin system: only its `size` is read. -/
structure SvgAsset where
  size : V2
deriving DecidableEq, Repr

/-- One drawable entity as seen by `apply_origin`: the component tuple of its
query (`&C` reduced to the handle id, `&Origin`, `&mut OriginState`,
`Ref<Transform>`, `&mut GlobalTransform`).  `GlobalTransform` is modelled by
the TRS transform `compute_transform` extracts from it (the system only
rebuilds it from that value after editing the translation). -/
structure SvgInstance where
  svgHandle : Nat
  origin : Origin
  /-- `OriginState.previous`: the previously applied origin. -/
  originState : Origin
  transform : Transform3
  global_transform : Transform3
deriving DecidableEq, Repr

/-- The loop body of `apply_origin` (origin.rs:80-107) for one queried entity.
`svgs` is the read-only `Res<Assets<Svg>>` table; `transform_changed` is
`transform.is_changed()`.  The function returns the updated entity; it has no
error outcome and never touches `svgs`. -/
def apply_origin (svgs : Nat → Option SvgAsset) (transform_changed : Bool)
    (inst : SvgInstance) : SvgInstance :=
  match svgs inst.svgHandle with
  | none => inst
  | some svg =>
    if inst.originState ≠ inst.origin then
      let scaled_size : V2 :=
        ⟨svg.size.x * inst.transform.scale.x, svg.size.y * inst.transform.scale.y⟩
      let reverse_origin_translation := compute_translation inst.originState scaled_size
      let origin_translation := compute_translation inst.origin scaled_size
      { inst with
          global_transform :=
            { inst.global_transform with
                translation := addV3 inst.global_transform.translation
                  (subV3 origin_translation reverse_origin_translation) },
          originState := inst.origin }
    else if transform_changed then
      let scaled_size : V2 :=
        ⟨svg.size.x * inst.transform.scale.x, svg.size.y * inst.transform.scale.y⟩
      let origin_translation := compute_translation inst.origin scaled_size
      { inst with
          global_transform :=
            { inst.global_transform with
                translation := addV3 inst.global_transform.translation origin_translation } }
    else inst

/-- One update tick of the origin-correction pass for one entity: the query of
`apply_origin` only yields entities for which `Origin`, `Transform` or the
mesh component is flagged changed (origin.rs:73-77); all others are left
untouched. -/
def origin_tick (svgs : Nat → Option SvgAsset)
    (origin_changed transform_changed mesh_changed : Bool)
    (inst : SvgInstance) : SvgInstance :=
  if origin_changed || transform_changed || mesh_changed then
    apply_origin svgs transform_changed inst
  else inst

/-!
Part 3 embeds the Document Tree Extractor (`Svg::parse_tree` and the style
resolution feeding it, `src/svg.rs` lines 89-134 and 298-327). -/

/-- An RGBA color (`bevy` `Color` restricted to what the resolver produces:
`Color::rgba_u8` values and `Color::default()`). -/
structure Color where
  r : Nat
  g : Nat
  b : Nat
  a : Nat
deriving DecidableEq, Repr

/-- `Color::default()`: the fallback used for non-flat paints. -/
def defaultColor : Color := ⟨255, 255, 255, 255⟩

/-- `usvg::Paint`. -/
inductive Paint where
  | color (r g b : Nat)
  | linearGradient
  | radialGradient
  | pattern
deriving DecidableEq, Repr

/-- `usvg::Fill` as read by the extractor: paint and opacity (`to_u8`). -/
structure FillSpec where
  paint : Paint
  opacity : Nat
deriving DecidableEq, Repr

/-- `lyon_tessellation::LineCap`. -/
inductive LineCap where
  | butt
  | square
  | round
deriving DecidableEq, Repr

/-- `lyon_tessellation::LineJoin`. -/
inductive LineJoin where
  | miter
  | bevel
  | round
  | miterClip
deriving DecidableEq, Repr

/-- `usvg::Stroke` as read by the resolver, with `usvg`'s cap/join enums
identified with the isomorphic `lyon` ones (the source maps them 1:1). -/
structure StrokeSpec where
  paint : Paint
  opacity : Nat
  width : Rat
  linecap : LineCap
  linejoin : LineJoin
deriving DecidableEq, Repr

/-- `lyon_tessellation::StrokeOptions` as constructed by the resolver. -/
structure StrokeOptions where
  tolerance : Rat
  line_width : Rat
  line_cap : LineCap
  line_join : LineJoin
deriving DecidableEq, Repr

/-- `DrawType` (svg.rs:168-171). -/
inductive DrawType where
  | fill
  | stroke (opt : StrokeOptions)
deriving DecidableEq, Repr

/-- Resolves a paint and opacity to a color: a flat color keeps its channels
with the given alpha; gradients and patterns fall back to the default color
(svg.rs:106-111 and 301-306). -/
def resolveColor (paint : Paint) (opacity : Nat) : Color :=
  match paint with
  | .color r g b => ⟨r, g, b, opacity⟩
  | .linearGradient => defaultColor
  | .radialGradient => defaultColor
  | .pattern => defaultColor

/-- `Convert<(Color, DrawType)> for &usvg::Stroke` (svg.rs:298-326). -/
def strokeConvert (s : StrokeSpec) : Color × DrawType :=
  (resolveColor s.paint s.opacity,
   .stroke ⟨1/100, s.width, s.linecap, s.linejoin⟩)

/-- A 2D affine transform (`usvg::Transform` / `tiny_skia` `Transform`):
`[sx kx tx; ky sy ty]`. -/
structure Affine where
  sx : Rat
  ky : Rat
  kx : Rat
  sy : Rat
  tx : Rat
  ty : Rat
deriving DecidableEq, Repr

/-- `usvg::Path` as read by the extractor: raw segments, optional fill and
stroke, and the absolute (pre-composed) transform. -/
structure PathData where
  data : List PathSegment
  fill : Option FillSpec
  stroke : Option StrokeSpec
  abs_transform : Affine
deriving DecidableEq, Repr

/-- `usvg::Node`: a group with ordered children, a path, or any other node
kind (text, image), which the extractor ignores. -/
inductive Node where
  | group (children : List Node)
  | path (p : PathData)
  | other

/-- `PathDescriptor` (svg.rs:160-165). -/
structure PathDescriptor where
  segments : List PathEvent
  abs_transform : Affine
  color : Color
  draw_type : DrawType
deriving DecidableEq, Repr

/-- The descriptor pushed for a path's fill (svg.rs:105-119). -/
def fillDescriptor (p : PathData) (fill : FillSpec) : PathDescriptor :=
  { segments := pathEvents (mkScale p.abs_transform.sx p.abs_transform.sy) p.data,
    abs_transform := p.abs_transform,
    color := resolveColor fill.paint fill.opacity,
    draw_type := .fill }

/-- The descriptor pushed for a path's stroke (svg.rs:121-130). -/
def strokeDescriptor (p : PathData) (stroke : StrokeSpec) : PathDescriptor :=
  { segments := pathEvents (mkScale p.abs_transform.sx p.abs_transform.sy) p.data,
    abs_transform := p.abs_transform,
    color := (strokeConvert stroke).1,
    draw_type := (strokeConvert stroke).2 }

/-- The descriptors a single `Path` node pushes (svg.rs:105-130): the fill
descriptor, when a fill is present, immediately followed by the stroke
descriptor, when a stroke is present.  Both collect the converter's events
under the path's axis-sign scale. -/
def pathDescriptors (p : PathData) : List PathDescriptor :=
  (match p.fill with
   | some fill => [fillDescriptor p fill]
   | none => []) ++
  (match p.stroke with
   | some stroke => [strokeDescriptor p stroke]
   | none => [])

mutual

/-- `Svg::parse_tree` (svg.rs:89-134): pushes the node's descriptors onto the
accumulator, recursing into a group's children in document order.  The `Vec`
the source mutates is modelled as the accumulator list. -/
def parse_tree : Node → List PathDescriptor → List PathDescriptor
  | .group children, descriptors => parse_tree_children children descriptors
  | .path p, descriptors => descriptors ++ pathDescriptors p
  | .other, descriptors => descriptors

/-- The `for node in group.children()` loop of `Svg::parse_tree`. -/
def parse_tree_children : List Node → List PathDescriptor → List PathDescriptor
  | [], descriptors => descriptors
  | n :: rest, descriptors => parse_tree_children rest (parse_tree n descriptors)

end

/-- The descriptor list of `Svg::from_tree` (svg.rs:136-156): the root's
children are walked in order with an initially empty descriptor vector. -/
def from_tree_descriptors (root_children : List Node) : List PathDescriptor :=
  parse_tree_children root_children []

mutual

/-- Spec-side definition, following the spec's words: the `Path` nodes of a
tree in depth-first, pre-order document traversal order. -/
def paths_of : Node → List PathData
  | .group children => paths_of_children children
  | .path p => [p]
  | .other => []

/-- Pre-order path collection over a forest of sibling nodes. -/
def paths_of_children : List Node → List PathData
  | [] => []
  | n :: rest => paths_of n ++ paths_of_children rest

end

/-- Concatenation of the images of a list's elements, in order. -/
def concatMap (f : α → List β) : List α → List β
  | [] => []
  | a :: rest => f a ++ concatMap f rest

/-!
Part 4 models the Tessellation Buffer Generator.  Its source file
(`render/tessellation.rs`) is not among the provided sources - only its
caller `Svg::tessellate` is - so it is modelled from the spec (sections 4.4
and 8).  The two external tessellators are abstracted as one fallible
function from a descriptor to raw triangulated geometry. -/

/-- Raw triangulated geometry one tessellator emits for one descriptor. -/
structure Geometry where
  positions : List V2
  indices : List Nat
deriving DecidableEq, Repr

/-- A mesh vertex: position plus the per-vertex color. -/
structure BufferVertex where
  position : V2
  color : Color
deriving DecidableEq, Repr

/-- The combined vertex/index mesh buffer. -/
structure VertexBuffers where
  vertices : List BufferVertex
  indices : List Nat
deriving DecidableEq, Repr

/-- Modelled from the spec: the loop body of `generate_buffer`
(`render/tessellation.rs`, missing from the sources).  Per spec section 4.4,
each descriptor is fed to the matching tessellator; a rejected (degenerate)
descriptor is skipped and counted; accepted geometry is appended to the one
shared buffer with indices offset by the running vertex count and the
descriptor's resolved color replicated across its vertices. -/
def generate_buffer_loop (tess : PathDescriptor → Option Geometry)
    (acc : VertexBuffers × Nat) : List PathDescriptor → VertexBuffers × Nat
  | [] => acc
  | d :: rest =>
    match tess d with
    | none => generate_buffer_loop tess (acc.1, acc.2 + 1) rest
    | some geom =>
        generate_buffer_loop tess
          ({ vertices :=
               acc.1.vertices ++ geom.positions.map (fun pos => ⟨pos, d.color⟩),
             indices :=
               acc.1.indices ++ geom.indices.map (· + acc.1.vertices.length) },
           acc.2) rest

/-- Modelled from the spec: `generate_buffer` over a whole descriptor list,
returning the combined buffer and the count of skipped descriptors. -/
def generate_buffer (tess : PathDescriptor → Option Geometry)
    (descriptors : List PathDescriptor) : VertexBuffers × Nat :=
  generate_buffer_loop tess (⟨[], []⟩, 0) descriptors

/-- The vertices a single descriptor contributes: its tessellated positions
with the descriptor's color, nothing when the tessellator rejects it. -/
def descriptorVertices (tess : PathDescriptor → Option Geometry)
    (d : PathDescriptor) : List BufferVertex :=
  match tess d with
  | none => []
  | some geom => geom.positions.map (fun pos => ⟨pos, d.color⟩)

/-!
Concrete values used by the witness theorems. -/

/-- An asset table holding one SVG of size 100 x 50 under every handle. -/
def svgs100 : Nat → Option SvgAsset := fun _ => some ⟨⟨100, 50⟩⟩

/-- An asset table with no loaded SVG. -/
def svgsEmpty : Nat → Option SvgAsset := fun _ => none

/-- A local transform with unit scale. -/
def unitTransform : Transform3 :=
  { translation := ⟨0, 0, 0⟩, rotation := (⟨0, 0, 0⟩, 1), scale := ⟨1, 1, 1⟩ }

/-- A world transform with translation (7, 8, 9). -/
def worldTransform789 : Transform3 :=
  { translation := ⟨7, 8, 9⟩, rotation := (⟨0, 0, 0⟩, 1), scale := ⟨1, 1, 1⟩ }

/-- Instance tracked at `TopLeft` whose live origin is `Center`. -/
def instTopLeftToCenter : SvgInstance :=
  { svgHandle := 0, origin := .center, originState := .topLeft,
    transform := unitTransform, global_transform := worldTransform789 }

/-- Instance tracked at `Center` whose live origin is `BottomRight`. -/
def instCenterToBottomRight : SvgInstance :=
  { svgHandle := 0, origin := .bottomRight, originState := .center,
    transform := unitTransform, global_transform := worldTransform789 }

/-- Instance whose live origin equals its tracked origin. -/
def instSteady : SvgInstance :=
  { svgHandle := 0, origin := .center, originState := .center,
    transform := unitTransform, global_transform := worldTransform789 }

/-- A concrete path with both a fill and a stroke. -/
def samplePath : PathData :=
  { data := [.moveTo ⟨0, 0⟩, .lineTo ⟨1, 0⟩, .lineTo ⟨1, 1⟩, .close],
    fill := some ⟨.color 10 20 30, 255⟩,
    stroke := some ⟨.color 40 50 60, 255, 2, .butt, .miter⟩,
    abs_transform := ⟨1, 0, 0, 1, 0, 0⟩ }

/-- A descriptor marked by color channel `r = 1`. -/
def descMark1 : PathDescriptor :=
  { segments := [], abs_transform := ⟨1, 0, 0, 1, 0, 0⟩, color := ⟨1, 0, 0, 255⟩,
    draw_type := .fill }

/-- A descriptor marked by color channel `r = 2`. -/
def descMark2 : PathDescriptor :=
  { segments := [], abs_transform := ⟨1, 0, 0, 1, 0, 0⟩, color := ⟨2, 0, 0, 255⟩,
    draw_type := .fill }

/-- A descriptor marked by color channel `r = 3`. -/
def descMark3 : PathDescriptor :=
  { segments := [], abs_transform := ⟨1, 0, 0, 1, 0, 0⟩, color := ⟨3, 0, 0, 255⟩,
    draw_type := .fill }

/-- A tessellator that rejects exactly the descriptor marked `r = 2` and
yields one-triangle geometry for the others. -/
def tessMark : PathDescriptor → Option Geometry := fun d =>
  if d.color.r = 2 then none
  else some ⟨[⟨0, 0⟩, ⟨1, 0⟩, ⟨0, 1⟩], [0, 1, 2]⟩

/-!
Supporting lemmas. -/

theorem concatMap_append (f : α → List β) (l1 l2 : List α) :
    concatMap f (l1 ++ l2) = concatMap f l1 ++ concatMap f l2 := by
  induction l1 with
  | nil => simp [concatMap]
  | cons a rest ih => simp [concatMap, ih]

mutual

/-- The accumulator-passing extractor equals the accumulator followed by the
descriptors of the tree's paths in pre-order. -/
theorem parse_tree_eq (n : Node) (acc : List PathDescriptor) :
    parse_tree n acc = acc ++ concatMap pathDescriptors (paths_of n) := by
  cases n with
  | group children =>
      rw [parse_tree, paths_of, parse_tree_children_eq]
  | path p => simp [parse_tree, paths_of, concatMap]
  | other => simp [parse_tree, paths_of, concatMap]

/-- Same, over a forest of sibling nodes. -/
theorem parse_tree_children_eq (ns : List Node) (acc : List PathDescriptor) :
    parse_tree_children ns acc = acc ++ concatMap pathDescriptors (paths_of_children ns) := by
  cases ns with
  | nil => simp [parse_tree_children, paths_of_children, concatMap]
  | cons n rest =>
      rw [parse_tree_children, paths_of_children, parse_tree_children_eq, parse_tree_eq,
        concatMap_append, List.append_assoc]

end

/-- The buffer-generation loop adds one skip per rejected descriptor and
appends each accepted descriptor's colored vertices to the accumulator. -/
theorem generate_buffer_loop_spec (tess : PathDescriptor → Option Geometry)
    (ds : List PathDescriptor) : ∀ acc : VertexBuffers × Nat,
    (generate_buffer_loop tess acc ds).2 = acc.2 + ds.countP (fun d => (tess d).isNone) ∧
    (generate_buffer_loop tess acc ds).1.vertices =
      acc.1.vertices ++ concatMap (descriptorVertices tess) ds := by
  induction ds with
  | nil => intro acc; simp [generate_buffer_loop, concatMap]
  | cons d rest ih =>
      intro acc
      rw [generate_buffer_loop]
      cases htd : tess d with
      | none =>
          refine ⟨?_, ?_⟩
          · rw [(ih _).1]
            simp [List.countP_cons, htd]
            omega
          · rw [(ih _).2]
            simp [concatMap, descriptorVertices, htd]
      | some geom =>
          refine ⟨?_, ?_⟩
          · rw [(ih _).1]
            simp [List.countP_cons, htd]
          · rw [(ih _).2]
            simp [concatMap, descriptorVertices, htd]

/-!
Claim theorems. -/

/-- C1: the claim says the Quadratic event's `ctrl` field equals the source
command's control point (scaled).  Evaluating the converter at the failing
input `[MoveTo (0,0), QuadTo ((1,2),(3,4))]` under the identity scale shows
the emitted event is `Quadratic from (0,0) ctrl (3,4) to (3,4)`: the `ctrl`
field is the scaled end point `p`, not the scaled control point `(1,2)`
(svg.rs:230 writes `ctrl: convert_point(p)`). -/
theorem C1_quadratic_ctrl_is_endpoint_eval :
    pathEvents ⟨1, 1⟩ [.moveTo ⟨0, 0⟩, .quadTo ⟨1, 2⟩ ⟨3, 4⟩] =
      [.begin ⟨0, 0⟩, .quadratic ⟨0, 0⟩ ⟨3, 4⟩ ⟨3, 4⟩, .end_ ⟨3, 4⟩ ⟨0, 0⟩ false] ∧
    (⟨3, 4⟩ : Pt) ≠ ⟨1, 2⟩ := by
  decide

/-- C2 counterexample: for the very first subpath the claim fails.  On
`[MoveTo (5,7), LineTo (9,9)]` under the identity scale, the Begin event is
at `(5,7)` but the immediately following Line event has `from = (0,0)`: a
directly-emitted `MoveTo` updates `first` only, never `prev`
(svg.rs:210-213). -/
theorem C2_first_draw_from_counterexample :
    pathEvents ⟨1, 1⟩ [.moveTo ⟨5, 7⟩, .lineTo ⟨9, 9⟩] =
      [.begin ⟨5, 7⟩, .line ⟨0, 0⟩ ⟨9, 9⟩, .end_ ⟨9, 9⟩ ⟨5, 7⟩ false] ∧
    (⟨0, 0⟩ : Pt) ≠ ⟨5, 7⟩ := by
  decide

/-- C2 (amended): `prev` is updated by draw commands, by Close, and by a
MoveTo that closes an open subpath (whose Begin is deferred), but not by a
directly emitted MoveTo.  Hence the first draw event of a deferred-Begin
subpath has `from` equal to the scale image of the Begin's point (the Begin
itself being emitted unscaled), while the first draw event of a
directly-begun subpath has `from` equal to the scale image of the stale
`prev` — `(0,0)` for the very first subpath — which need not be the Begin's
point.  The theorem exhibits the full event stream of a two-subpath path
with all points and the scale left universally quantified. -/
theorem C2_prev_tracking_amended (sc a b p q : Pt) :
    pathEvents sc [.moveTo a, .lineTo b, .moveTo p, .lineTo q] =
      [.begin (scalePt sc a),
       .line (scalePt sc ⟨0, 0⟩) (scalePt sc b),
       .end_ (scalePt sc b) (scalePt sc a) false,
       .begin p,
       .line (scalePt sc p) (scalePt sc q),
       .end_ (scalePt sc q) (scalePt sc p) false] := rfl

/-- C3: when the image is loaded and the live origin differs from the
tracked origin, `apply_origin` adds exactly
`compute_translation new - compute_translation previous` (at the image size
scaled by the transform's xy scale) to the world translation and sets the
tracked origin to the new origin (origin.rs:83-95). -/
theorem C3_origin_change_applies_difference
    (svgs : Nat → Option SvgAsset) (tc : Bool) (inst : SvgInstance) (svg : SvgAsset)
    (hload : svgs inst.svgHandle = some svg)
    (hdiff : inst.origin ≠ inst.originState) :
    (apply_origin svgs tc inst).global_transform.translation =
      addV3 inst.global_transform.translation
        (subV3
          (compute_translation inst.origin
            ⟨svg.size.x * inst.transform.scale.x, svg.size.y * inst.transform.scale.y⟩)
          (compute_translation inst.originState
            ⟨svg.size.x * inst.transform.scale.x, svg.size.y * inst.transform.scale.y⟩)) ∧
    (apply_origin svgs tc inst).originState = inst.origin := by
  have h2 : inst.originState ≠ inst.origin := fun h => hdiff h.symm
  unfold apply_origin
  rw [hload]
  simp [h2]

/-- C3 witness: for scaled size (100, 50), switching TopLeft → Center adds
(−50, 25, 0) to the world translation (7,8,9), and switching
Center → BottomRight also adds (−50, 25, 0). -/
theorem C3_origin_change_applies_difference_witness :
    svgs100 instTopLeftToCenter.svgHandle = some ⟨⟨100, 50⟩⟩ ∧
    instTopLeftToCenter.origin ≠ instTopLeftToCenter.originState ∧
    (apply_origin svgs100 false instTopLeftToCenter).global_transform.translation =
      ⟨7 - 50, 8 + 25, 9⟩ ∧
    (apply_origin svgs100 false instTopLeftToCenter).originState = .center ∧
    (apply_origin svgs100 false instCenterToBottomRight).global_transform.translation =
      ⟨7 - 50, 8 + 25, 9⟩ ∧
    (apply_origin svgs100 false instCenterToBottomRight).originState = .bottomRight := by
  have ha := C3_origin_change_applies_difference svgs100 false instTopLeftToCenter
    ⟨⟨100, 50⟩⟩ rfl (by decide)
  have hb := C3_origin_change_applies_difference svgs100 false instCenterToBottomRight
    ⟨⟨100, 50⟩⟩ rfl (by decide)
  refine ⟨rfl, by decide, ?_, ha.2, ?_, hb.2⟩
  · rw [ha.1]
    norm_num [addV3, subV3, compute_translation, instTopLeftToCenter, worldTransform789,
      unitTransform]
  · rw [hb.1]
    norm_num [addV3, subV3, compute_translation, instCenterToBottomRight, worldTransform789,
      unitTransform]

/-- C4: `compute_translation` returns (0,0,0) for TopLeft, (−x,0,0) for
TopRight, (0,y,0) for BottomLeft, (−x,y,0) for BottomRight and
(−x/2, y/2, 0) for Center, and its z-component is always 0
(origin.rs:30-39). -/
theorem C4_compute_translation_values (s : V2) :
    compute_translation .topLeft s = ⟨0, 0, 0⟩ ∧
    compute_translation .topRight s = ⟨-s.x, 0, 0⟩ ∧
    compute_translation .bottomLeft s = ⟨0, s.y, 0⟩ ∧
    compute_translation .bottomRight s = ⟨-s.x, s.y, 0⟩ ∧
    compute_translation .center s = ⟨-s.x / 2, s.y / 2, 0⟩ ∧
    ∀ o : Origin, (compute_translation o s).z = 0 := by
  refine ⟨rfl, rfl, rfl, rfl, ?_, ?_⟩
  · show (⟨-s.x * (1/2), s.y * (1/2), 0⟩ : V3) = ⟨-s.x / 2, s.y / 2, 0⟩
    have h1 : -s.x * (1/2 : Rat) = -s.x / 2 := by ring
    have h2 : s.y * (1/2 : Rat) = s.y / 2 := by ring
    rw [h1, h2]
  · intro o
    cases o <;> rfl

/-- C5: the claim says each closed End event's `first` and `last` equal the
point of the most recent preceding Begin event.  Evaluating the converter on
a well-formed path whose second subpath is opened by a deferred Begin, under
the sign-flipping scale (−1, 1) (arising from an absolute transform with
negative x scale), shows the closed End carries the scaled subpath start
(−3, 0) while the preceding Begin event was emitted unscaled at (3, 0): the
deferred Begin bypasses `.transformed(&self.scale)` (svg.rs:191-193 returns
before line 268). -/
theorem C5_closed_end_vs_begin_eval :
    pathEvents ⟨-1, 1⟩
      [.moveTo ⟨1, 0⟩, .lineTo ⟨2, 0⟩, .moveTo ⟨3, 0⟩, .lineTo ⟨4, 0⟩, .close] =
      [.begin ⟨-1, 0⟩, .line ⟨0, 0⟩ ⟨-2, 0⟩, .end_ ⟨-2, 0⟩ ⟨-1, 0⟩ false,
       .begin ⟨3, 0⟩, .line ⟨-3, 0⟩ ⟨-4, 0⟩, .end_ ⟨-3, 0⟩ ⟨-3, 0⟩ true] ∧
    (⟨-3, 0⟩ : Pt) ≠ ⟨3, 0⟩ := by
  decide

/-- C6: an instance whose live origin equals its tracked origin and whose
transform is unflagged is left entirely unchanged by one tick of the
origin-correction pass, whatever the other change flags: the differing-origin
branch is not taken and the transform-changed branch requires the change
flag (origin.rs:83-105); an instance with no flag at all is not even queried
(origin.rs:73-77). -/
theorem C6_same_origin_tick_noop (svgs : Nat → Option SvgAsset) (co cm : Bool)
    (inst : SvgInstance) (h : inst.origin = inst.originState) :
    origin_tick svgs co false cm inst = inst := by
  have h2 : ¬(inst.originState ≠ inst.origin) := by simp [h]
  unfold origin_tick apply_origin
  cases svgs inst.svgHandle <;> simp [h2]

/-- C6 witness: a queried instance tracked at Center with live origin Center
and unchanged transform is returned unchanged. -/
theorem C6_same_origin_tick_noop_witness :
    origin_tick svgs100 true false true instSteady = instSteady :=
  C6_same_origin_tick_noop svgs100 true true instSteady rfl

/-- C7: when the referenced image asset is not loaded, one tick of the
origin-correction pass leaves the instance fully unchanged — no world
transform mutation and no origin-state mutation (origin.rs:82 guards the
whole body; the `None` case has no error path: the function's result carries
no error value, the entity is simply seen again on a later tick). -/
theorem C7_unloaded_asset_skipped (svgs : Nat → Option SvgAsset)
    (co ct cm : Bool) (inst : SvgInstance)
    (h : svgs inst.svgHandle = none) :
    origin_tick svgs co ct cm inst = inst := by
  unfold origin_tick apply_origin
  simp [h]

/-- C7 witness: with an empty asset table every flag combination leaves the
instance unchanged. -/
theorem C7_unloaded_asset_skipped_witness :
    origin_tick svgsEmpty true true true instTopLeftToCenter = instTopLeftToCenter :=
  C7_unloaded_asset_skipped svgsEmpty true true true instTopLeftToCenter rfl

/-- C8: the extractor emits descriptors in depth-first pre-order document
order (the accumulator-passing walk equals the pre-order path list's
descriptors), each path's fill descriptor immediately precedes its stroke
descriptor when both are present, and for groups G1{P1, P2}, G2{P3} the
output is P1's, then P2's, then P3's descriptors.  The embedding of
`Svg::parse_tree` is a pure function of the tree (`&Node` in the source), so
the source tree is not mutated. -/
theorem C8_extraction_preorder :
    (∀ root_children : List Node,
      from_tree_descriptors root_children =
        concatMap pathDescriptors (paths_of_children root_children)) ∧
    (∀ (p : PathData) (f : FillSpec) (s : StrokeSpec),
      p.fill = some f → p.stroke = some s →
      pathDescriptors p = [fillDescriptor p f, strokeDescriptor p s]) ∧
    (∀ p1 p2 p3 : PathData,
      parse_tree (.group [.group [.path p1, .path p2], .group [.path p3]]) [] =
        pathDescriptors p1 ++ pathDescriptors p2 ++ pathDescriptors p3) := by
  refine ⟨?_, ?_, ?_⟩
  · intro cs
    rw [from_tree_descriptors, parse_tree_children_eq]
    simp
  · intro p f s hf hs
    simp [pathDescriptors, hf, hs]
  · intro p1 p2 p3
    rw [parse_tree_eq]
    simp [paths_of, paths_of_children, concatMap]

/-- C8 witness: the fill descriptor of a concrete path with both paints
immediately precedes its stroke descriptor. -/
theorem C8_extraction_preorder_witness :
    pathDescriptors samplePath =
      [fillDescriptor samplePath ⟨.color 10 20 30, 255⟩,
       strokeDescriptor samplePath ⟨.color 40 50 60, 255, 2, .butt, .miter⟩] :=
  C8_extraction_preorder.2.1 samplePath _ _ rfl rfl

/-- C9 (modelled from the spec; `render/tessellation.rs` is not among the
sources): the buffer generator skips rejected descriptors individually - the
skipped count is exactly the number of rejected descriptors, the buffer's
vertices are the concatenation of every accepted descriptor's colored
geometry, and in particular for three descriptors with the second rejected
the mesh holds the geometry of the first and third with a skipped count
of 1. -/
theorem C9_skip_and_continue :
    (∀ (tess : PathDescriptor → Option Geometry) (ds : List PathDescriptor),
      (generate_buffer tess ds).2 = ds.countP (fun d => (tess d).isNone) ∧
      (generate_buffer tess ds).1.vertices = concatMap (descriptorVertices tess) ds) ∧
    (∀ (tess : PathDescriptor → Option Geometry) (d1 d2 d3 : PathDescriptor)
        (g1 g3 : Geometry), tess d1 = some g1 → tess d2 = none → tess d3 = some g3 →
      (generate_buffer tess [d1, d2, d3]).2 = 1 ∧
      (generate_buffer tess [d1, d2, d3]).1.vertices =
        g1.positions.map (fun pos => ⟨pos, d1.color⟩) ++
          g3.positions.map (fun pos => ⟨pos, d3.color⟩)) := by
  constructor
  · intro tess ds
    have h := generate_buffer_loop_spec tess ds (⟨[], []⟩, 0)
    rw [generate_buffer]
    exact ⟨h.1.trans (by simp), h.2.trans (by simp)⟩
  · intro tess d1 d2 d3 g1 g3 h1 h2 h3
    have h := generate_buffer_loop_spec tess [d1, d2, d3] (⟨[], []⟩, 0)
    rw [generate_buffer]
    refine ⟨h.1.trans ?_, h.2.trans ?_⟩
    · simp [List.countP_cons, h1, h2, h3]
    · simp [concatMap, descriptorVertices, h1, h2, h3]

/-- C9 witness: three concrete descriptors, the second rejected by the
tessellator: the buffer holds the colored triangles of the first and third
and the skipped count is 1. -/
theorem C9_skip_and_continue_witness :
    (generate_buffer tessMark [descMark1, descMark2, descMark3]).2 = 1 ∧
    (generate_buffer tessMark [descMark1, descMark2, descMark3]).1.vertices =
      [⟨⟨0, 0⟩, ⟨1, 0, 0, 255⟩⟩, ⟨⟨1, 0⟩, ⟨1, 0, 0, 255⟩⟩, ⟨⟨0, 1⟩, ⟨1, 0, 0, 255⟩⟩,
       ⟨⟨0, 0⟩, ⟨3, 0, 0, 255⟩⟩, ⟨⟨1, 0⟩, ⟨3, 0, 0, 255⟩⟩, ⟨⟨0, 1⟩, ⟨3, 0, 0, 255⟩⟩] := by
  have h := C9_skip_and_continue.2 tessMark descMark1 descMark2 descMark3 _ _ rfl rfl rfl
  exact ⟨h.1, h.2.trans rfl⟩

/-- C10: `apply_origin` mutates at most the translation of the world
transform: the instance's origin component, its local transform, and the
rotation and scale of the world transform are returned unchanged in every
branch (origin.rs:80-107).  The asset table is taken by read-only reference
(`Res<Assets<Svg>>`) and does not appear in the result at all. -/
theorem C10_only_translation_mutated (svgs : Nat → Option SvgAsset) (tc : Bool)
    (inst : SvgInstance) :
    (apply_origin svgs tc inst).origin = inst.origin ∧
    (apply_origin svgs tc inst).transform = inst.transform ∧
    (apply_origin svgs tc inst).global_transform.rotation =
      inst.global_transform.rotation ∧
    (apply_origin svgs tc inst).global_transform.scale =
      inst.global_transform.scale := by
  unfold apply_origin
  cases svgs inst.svgHandle with
  | none => exact ⟨rfl, rfl, rfl, rfl⟩
  | some svg =>
      by_cases h : inst.originState ≠ inst.origin
      · simp [h]
      · simp only [h]
        cases tc <;> simp [h]
